import Mathlib

/-!
# Verification of the credential and token lifecycle subsystem

Shallow embedding of the Go sources of `agung-learns/ebook-go-further`:
`internal/data/users.go` (password hashing wrapper, user validation, the
`UserModel` persistence operations) and `cmd/api/tokens.go` (the
authentication, password-reset-token and activation-token HTTP handlers).

Modelling conventions:
* Go `[]byte` values become `List Nat`; a Go `nil` slice is `none` of an
  `Option (List Nat)` (so that a nil hash is distinguishable from an empty
  one, as in Go).
* `time.Time` becomes `Int` (Unix seconds); a Go `time.Duration` of
  `24 * time.Hour` becomes the integer `86400`.
* The bcrypt library (`golang.org/x/crypto/bcrypt`) and the JWT HMAC signer
  (`github.com/pascaldekloe/jwt`) are external collaborators; they are
  abstracted as explicit function-record parameters so that theorems state
  exactly how the repository's code uses their results.
* The SQL store becomes an in-memory relational state: a list of user rows
  and a list of token rows.  `QueryRowContext ... Scan` on a `SELECT`
  becomes a lookup returning the first matching row, with `sql.ErrNoRows`
  mapped to the code's `ErrRecordNotFound` translation.
* `http.ResponseWriter` interaction becomes a `Response` value; the
  `app.background` goroutine dispatch becomes a returned list of task
  descriptions whose later execution is modelled separately, so that the
  response decision and the background outcome are explicitly ordered.
-/

/-! ## Validator (modelled from the spec)

The `internal/validator` package is code of this repository that is not
under `src/`; only its callers are.  It is modelled from the spec, §4.2:
it "accumulates `(field, message)` pairs via `check(condition, field,
message)` — if `condition` is false, appends unless the field already has a
recorded error (first error wins per field). Exposes `valid() -> bool` and
`errors() -> mapping`."
-/

/-- Modelled from the spec: the validation accumulator of the missing
`internal/validator` package — a mapping from field name to the first
error message recorded for that field. -/
structure Validator where
  errors : List (String × String)
deriving Repr, DecidableEq

/-- Modelled from the spec: `validator.New()` returns a fresh, empty
accumulator. -/
def Validator.new : Validator := ⟨[]⟩

/-- Modelled from the spec: record `(field, message)` unless the field
already has a recorded error — first error wins per field. -/
def Validator.addError (v : Validator) (field message : String) : Validator :=
  if v.errors.any (fun e => e.fst == field) then v
  else ⟨v.errors ++ [(field, message)]⟩

/-- Modelled from the spec: `check(condition, field, message)` appends the
error when the condition is false. -/
def Validator.check (v : Validator) (cond : Bool) (field message : String) :
    Validator :=
  if cond then v else v.addError field message

/-- Modelled from the spec: `valid()` holds iff the mapping is empty. -/
def Validator.valid (v : Validator) : Bool := v.errors.isEmpty

/-- Modelled from the spec: `validator.Matches(email, validator.EmailRX)`,
an "email shape match against a standard email-address pattern".  The
precise regular expression is irrelevant to every claim (each only needs
some inputs that pass and the check to be a pure predicate of the string),
so it is abstracted as the presence of an at-sign. -/
def emailRXMatches (s : String) : Bool := s.data.any (fun c => c == '@')

/-! ## Credential data model — `internal/data/users.go` -/

/-- The `password` struct of `users.go`: a possibly-nil plaintext pointer
and a possibly-nil bcrypt hash slice. -/
structure Password where
  plainText : Option String
  hash : Option (List Nat)
deriving Repr, DecidableEq

/-- The `User` struct of `users.go` (`time.Time` as Unix seconds). -/
structure User where
  id : Int
  createdAt : Int
  name : String
  email : String
  password : Password
  activated : Bool
  version : Int
deriving Repr, DecidableEq

/-- Outcome of `bcrypt.CompareHashAndPassword`: success (`nil` error),
`bcrypt.ErrMismatchedHashAndPassword`, or any other (malformed-hash class)
error carrying its message. -/
inductive BcryptCompareResult where
  | success
  | mismatched
  | failure (msg : String)
deriving Repr, DecidableEq

/-- The bcrypt collaborator: `GenerateFromPassword(plaintext, cost)` and
`CompareHashAndPassword(hash, candidate)`.  A `none` hash models a Go nil
slice handed to the library. -/
structure Bcrypt where
  generateFromPassword : String → Nat → Except String (List Nat)
  compareHashAndPassword : Option (List Nat) → String → BcryptCompareResult

/-- `password.Set` from `users.go`: hash the plaintext at cost 12; on
success store the hash and keep a reference to the plaintext.  The Go
method mutates its receiver; the model returns the updated struct. -/
def Password.set (bc : Bcrypt) (_p : Password) (plainText : String) :
    Except String Password :=
  match bc.generateFromPassword plainText 12 with
  | .error e => .error e
  | .ok hash => .ok { plainText := some plainText, hash := some hash }

/-- `password.Matches` from `users.go`: compare the stored hash with the
candidate; translate `ErrMismatchedHashAndPassword` to `(false, nil)`,
propagate any other error, and return `(true, nil)` on success. -/
def Password.matches (bc : Bcrypt) (p : Password) (plainText : String) :
    Except String Bool :=
  match bc.compareHashAndPassword p.hash plainText with
  | .mismatched => .ok false
  | .failure e => .error e
  | .success => .ok true

/-- `ValidateEmail` from `users.go`. -/
def validateEmail (v : Validator) (email : String) : Validator :=
  let v := v.check (email != "") "email" "must be provided"
  v.check (emailRXMatches email) "email" "must be a valid email"

/-- `ValidatePasswordPlainText` from `users.go`; Go `len` on a string is
its byte length, modelled by `String.utf8ByteSize`. -/
def validatePasswordPlainText (v : Validator) (password : String) :
    Validator :=
  let v := v.check (password != "") "password" "must be provided"
  let v := v.check (decide (8 ≤ password.utf8ByteSize)) "password"
    "must be more than 8 characters"
  v.check (decide (password.utf8ByteSize ≤ 32)) "password"
    "must not be lower than 32 characters"

/-- `ValidateUser` from `users.go`.  The Go function panics when the
password hash is nil; the panic is modelled as the `.error` branch of
`Except`, carrying the panic message, and a normal return as `.ok` with
the final accumulator. -/
def validateUser (v : Validator) (u : User) : Except String Validator :=
  let v := v.check (u.name != "") "name" "must be provided"
  let v := v.check (decide (u.email.utf8ByteSize ≤ 500)) "email"
    "must not be more than 500 characters"
  let v := validateEmail v u.email
  let v := match u.password.plainText with
    | some p => validatePasswordPlainText v p
    | none => v
  if u.password.hash = none then .error "missing password hash for user"
  else .ok v

/-! ## Persistence model — `UserModel` of `internal/data/users.go` and the
token table -/

/-- The error translation layer of `users.go`: `sql.ErrNoRows` becomes
`ErrRecordNotFound`; other storage errors carry their message. -/
inductive DataErr where
  | recordNotFound
  | storage (msg : String)
deriving Repr, DecidableEq

/-- One row of the `tokens` table as the `GetForToken` query reads it:
`hash` is the stored lookup key column (bytes rendered as a string),
joined on `user_id`, filtered on `scope`; `expiry` is the stored absolute
expiry timestamp. -/
structure TokenRow where
  hash : String
  userId : Int
  scope : String
  expiry : Int
deriving Repr, DecidableEq

/-- The relational state the queries run against. -/
structure DBState where
  users : List User
  tokens : List TokenRow
deriving Repr, DecidableEq

/-- `UserModel.GetByEmail` from `users.go`: `SELECT ... FROM users WHERE
email = $1`, with `sql.ErrNoRows` translated to `ErrRecordNotFound`. -/
def getByEmail (db : DBState) (email : String) : Except DataErr User :=
  match db.users.find? (fun u => u.email == email) with
  | some u => .ok u
  | none => .error .recordNotFound

/-- `UserModel.GetForToken` from `users.go`.  The query is

  `SELECT users.* FROM users INNER JOIN tokens ON users.id = tokens.user_id
   WHERE tokens.scope = $1 AND tokens.hash = $2`

with `$1 := tokenScope` and `$2 := tokenPlainText`: the presented value is
bound directly against the `tokens.hash` column — the function computes no
digest of it — and the `WHERE` clause carries no condition on
`tokens.expiry` (and takes no time input at all).  `sql.ErrNoRows` is
translated to `ErrRecordNotFound`. -/
def getForToken (db : DBState) (tokenScope tokenPlainText : String) :
    Except DataErr User :=
  match db.tokens.find?
      (fun t => t.scope == tokenScope && t.hash == tokenPlainText) with
  | none => .error .recordNotFound
  | some t =>
    match db.users.find? (fun u => u.id == t.userId) with
    | some u => .ok u
    | none => .error .recordNotFound

/-! ## Opaque token store (modelled from the spec)

`internal/data/tokens.go` (the `Token` struct, `Tokens.New`, scope
constants and the digest computation) is code of this repository that is
not under `src/`; only its callers in `cmd/api/tokens.go` are.  It is
modelled from the spec, §3 and §4.3. -/

/-- Modelled from the spec: an issued opaque token — "`plaintext`: a
high-entropy random value...; `lookup_hash`: a deterministic one-way
digest of `plaintext`, used as the storage/search key; `user_id`; `scope`;
`expiry`: absolute timestamp". -/
structure Token where
  plainText : String
  hash : String
  userId : Int
  expiry : Int
  scope : String
deriving Repr, DecidableEq

/-- Modelled from the spec: the "SHA-256-class" deterministic one-way
digest deriving `lookup_hash` from `plaintext`.  The claims need only that
it is a deterministic function of the plaintext and distinct from the
plaintext itself, so it is abstracted as an injective tagging function. -/
def lookupDigest (plainText : String) : String := "sha256:" ++ plainText

/-- Modelled from the spec: `issue(user_id, ttl, scope)` — the missing
`Tokens.New`: with the generated random plaintext made an explicit input,
it computes the digest as the stored key and sets `expiry := now + ttl`. -/
def issueToken (plainText : String) (userId : Int) (ttl : Int)
    (scope : String) (now : Int) : Token :=
  { plainText := plainText, hash := lookupDigest plainText,
    userId := userId, expiry := now + ttl, scope := scope }

/-- The `tokens` table row written for an issued token: the store persists
the digest, never the plaintext. -/
def Token.row (t : Token) : TokenRow :=
  { hash := t.hash, userId := t.userId, scope := t.scope, expiry := t.expiry }

/-- Follows the spec's words (§4.3), for comparison with `getForToken`
above: "`resolve(scope, plaintext)`: recomputes the digest of the
presented `plaintext`, looks up a row with matching `lookup_hash` and
`scope`, joins to the owning user, and additionally must reject ... tokens
whose `expiry` has passed. Fails with `NotFound` when no row matches
scope+hash+non-expired." -/
def resolveSpec (db : DBState) (scope plainText : String) (now : Int) :
    Except DataErr User :=
  match db.tokens.find? (fun t =>
      t.scope == scope && t.hash == lookupDigest plainText
        && decide (now < t.expiry)) with
  | none => .error .recordNotFound
  | some t =>
    match db.users.find? (fun u => u.id == t.userId) with
    | some u => .ok u
    | none => .error .recordNotFound

/-! ## HTTP handlers — `cmd/api/tokens.go`

The handlers are embedded as pure functions of the parsed request input
(request parsing and response encoding are out of scope per spec §1; the
`readJSON` bad-request path is not modelled), the relational state, the
external collaborators, and the current time.  `app.background(fn)` is
modelled by returning the description of the dispatched email task; its
later execution is a separate function, reflecting that the goroutine runs
outside the request path. -/

/-- The client-visible outcome of a handler: which response helper ran and,
for success responses, the JSON envelope rendered as key/value pairs. -/
inductive Response where
  | failedValidation (errors : List (String × String))
  | invalidCredentials
  | notFoundResp
  | serverError
  | created (body : List (String × String))
  | accepted (body : List (String × String))
deriving Repr, DecidableEq

/-- All strings appearing in a response body (keys and values of the JSON
envelope); error responses carry their field errors. -/
def Response.bodyStrings : Response → List String
  | .failedValidation es => es.flatMap (fun e => [e.fst, e.snd])
  | .created body => body.flatMap (fun e => [e.fst, e.snd])
  | .accepted body => body.flatMap (fun e => [e.fst, e.snd])
  | _ => []

/-- The `jwt.Claims` fields set by `createAuthenticationHandler`
(numeric times as Unix seconds). -/
structure SessionClaims where
  subject : String
  issued : Int
  notBefore : Int
  expires : Int
  issuer : String
  audiences : List String
deriving Repr, DecidableEq

/-- The signing algorithm passed to `claims.HMACSign` (`jwt.HS256`). -/
inductive JwtAlg where
  | HS256
deriving Repr, DecidableEq

/-- The JWT collaborator: `claims.HMACSign(alg, secret)` producing the
serialized signed token bytes or a signing error. -/
structure JwtSigner where
  hmacSign : JwtAlg → String → SessionClaims → Except String String

/-- `createAuthenticationHandler` from `cmd/api/tokens.go`, after JSON
decoding.  The three `time.Now()` calls of the source are modelled by the
single instant `now` at which the handler runs. -/
def createAuthenticationHandler (bc : Bcrypt) (signer : JwtSigner)
    (jwtSecret : String) (db : DBState) (now : Int)
    (email password : String) : Response :=
  let v := validateEmail Validator.new email
  let v := validatePasswordPlainText v password
  if !v.valid then .failedValidation v.errors
  else
    match getByEmail db email with
    | .error .recordNotFound => .invalidCredentials
    | .error _ => .serverError
    | .ok user =>
      match user.password.matches bc password with
      | .error _ => .serverError
      | .ok false => .invalidCredentials
      | .ok true =>
        let claims : SessionClaims :=
          { subject := toString user.id, issued := now, notBefore := now,
            expires := now + 86400, issuer := "agung96tm.com",
            audiences := ["agung96tm.com"] }
        match signer.hmacSign .HS256 jwtSecret claims with
        | .error _ => .serverError
        | .ok jwtBytes => .created [("authentication_token", jwtBytes)]

/-- A background email task as captured by the closures handed to
`app.background`: recipient, template file name, and template data. -/
structure EmailTask where
  recipient : String
  template : String
  data : List (String × String)
deriving Repr, DecidableEq

/-- `createPasswordResetTokenHandler` from `cmd/api/tokens.go`, after JSON
decoding.  `app.models.Tokens.New(user.ID, 24h, ScopePasswordReset)` lives
in the missing `internal/data/tokens.go`, so its outcome is the explicit
input `tokenRes`.  Returns the response together with the dispatched
background tasks. -/
def createPasswordResetTokenHandler (db : DBState)
    (tokenRes : Except String Token) (email : String) :
    Response × List EmailTask :=
  let v := validateEmail Validator.new email
  if !v.valid then (.failedValidation v.errors, [])
  else
    match getByEmail db email with
    | .error .recordNotFound => (.notFoundResp, [])
    | .error _ => (.serverError, [])
    | .ok user =>
      if !user.activated then
        (.failedValidation ((v.addError "email" "user is not activated").errors), [])
      else
        match tokenRes with
        | .error _ => (.serverError, [])
        | .ok token =>
          (.accepted [("message", "Success to Send Reset Password")],
           [{ recipient := user.email, template := "token_password_reset",
              data := [("passwordResetToken", token.plainText)] }])

/-- `createActivationTokenHandler` from `cmd/api/tokens.go`, after JSON
decoding; `Tokens.New(user.ID, 24h, ScopeActivation)` as above. -/
def createActivationTokenHandler (db : DBState)
    (tokenRes : Except String Token) (email : String) :
    Response × List EmailTask :=
  let v := validateEmail Validator.new email
  if !v.valid then (.failedValidation v.errors, [])
  else
    match getByEmail db email with
    | .error .recordNotFound =>
        (.failedValidation ((v.addError "email" "user is not activated").errors), [])
    | .error _ => (.serverError, [])
    | .ok user =>
      if user.activated then
        (.failedValidation ((v.addError "email" "user is activated").errors), [])
      else
        match tokenRes with
        | .error _ => (.serverError, [])
        | .ok token =>
          (.accepted [("message", "success send email activation")],
           [{ recipient := user.email, template := "token_activation",
              data := [("activationToken", token.plainText)] }])

/-! ## Background execution model

The closures handed to `app.background` in both handlers run
`app.mailer.Send(...)` and, on a non-nil error, call
`app.logger.PrintError(err, nil)` — and nothing else: the captured
`http.ResponseWriter` is never touched.  Execution of a task is therefore
a function from the mailer's outcome to log entries alone. -/

/-- A log record produced by `app.logger.PrintError`. -/
inductive LogEntry where
  | errorLog (msg : String)
deriving Repr, DecidableEq

/-- Run one dispatched background task: `send` is the outcome of
`app.mailer.Send` for the task (`none` = nil error).  The body of the
closures in both handlers: log the error if non-nil. -/
def runEmailTask (send : EmailTask → Option String) (t : EmailTask) :
    List LogEntry :=
  match send t with
  | some e => [.errorLog e]
  | none => []

/-- A whole request round for the password-reset handler: the handler
decides the response and dispatches its tasks; the tasks then run in the
background with mailer outcome `send`.  The pair is (client response,
background log). -/
def processResetRequest (db : DBState) (tokenRes : Except String Token)
    (email : String) (send : EmailTask → Option String) :
    Response × List LogEntry :=
  let out := createPasswordResetTokenHandler db tokenRes email
  (out.fst, out.snd.flatMap (runEmailTask send))

/-- A whole request round for the activation handler, as above. -/
def processActivationRequest (db : DBState) (tokenRes : Except String Token)
    (email : String) (send : EmailTask → Option String) :
    Response × List LogEntry :=
  let out := createActivationTokenHandler db tokenRes email
  (out.fst, out.snd.flatMap (runEmailTask send))

/-! ## Concrete test fixtures

Executable instantiations of the external collaborators and a small
relational state, used by the counterexamples and witnesses. -/

/-- A concrete executable bcrypt stand-in for witnesses: the "hash" of a
plaintext is the one-element list of its byte length, comparison succeeds
exactly on equal byte length, and a nil stored hash fails with the
library's malformed-hash error message. -/
def bcTest : Bcrypt :=
  { generateFromPassword := fun p _cost => .ok [p.utf8ByteSize],
    compareHashAndPassword := fun h pw =>
      match h with
      | none => .failure "hashedSecret too short to be a bcrypted password"
      | some hs =>
        if hs == [pw.utf8ByteSize] then .success else .mismatched }

/-- A concrete executable signer stand-in for witnesses. -/
def signTest : JwtSigner :=
  { hmacSign := fun _alg secret c =>
      .ok (secret ++ "." ++ c.subject ++ "." ++ toString c.expires) }

/-- An activated user whose (test-model) stored hash matches 8-byte
passwords. -/
def alice : User :=
  { id := 1, createdAt := 0, name := "Alice", email := "alice@example.com",
    password := { plainText := none, hash := some [8] }, activated := true,
    version := 1 }

/-- A not-yet-activated user. -/
def bob : User :=
  { id := 2, createdAt := 0, name := "Bob", email := "bob@example.com",
    password := { plainText := none, hash := some [8] }, activated := false,
    version := 1 }

/-- User table for the handler witnesses. -/
def dbTest : DBState := { users := [alice, bob], tokens := [] }

/-- A token row whose stored key the presented value matches directly and
whose expiry (instant 100) lies in the past of the reference instant 200
used in the discussion of claim C1. -/
def rowC1 : TokenRow :=
  { hash := "k", userId := 1, scope := "password_reset", expiry := 100 }

/-- Store state for claim C1. -/
def dbC1 : DBState := { users := [alice], tokens := [rowC1] }

/-- Store state for claim C1 with the stored expiry replaced by an
arbitrary instant. -/
def dbC1At (e : Int) : DBState :=
  { users := [alice], tokens := [{ rowC1 with expiry := e }] }

/-- A token issued through the spec-modelled store at instant 0 with a
24-hour ttl. -/
def tokenC2 : Token := issueToken "WXYZ2345" 1 86400 "activation" 0

/-- Store state for claim C2: the issued token's row (digest as key) plus
its owning user. -/
def dbC2 : DBState := { users := [alice], tokens := [tokenC2.row] }

/-- A fixed issued token used by the handler witnesses. -/
def tokenTest : Token := issueToken "RESET234" 1 86400 "password_reset" 0

/-! ## Claims -/

/-- C1.  The claim states that `GetForToken` returns `NotFound` for every
stored token whose expiry has passed — that a token is only resolvable
while unexpired.  The code's query filters on scope and hash only, with no
expiry condition and no time input: a stored row whose key matches the
presented value resolves to the owning user although its expiry (100) has
passed (reference instant 200), and the result is the same for every value
of the stored expiry whatsoever. -/
theorem getForToken_ignores_expiry_bug :
    getForToken dbC1 "password_reset" "k" = .ok alice ∧
    rowC1.expiry = 100 ∧
    (∀ e : Int,
      getForToken (dbC1At e) "password_reset" "k" = .ok alice) :=
  ⟨rfl, rfl, fun _e => rfl⟩

/-- C2.  The claim states that `GetForToken` recomputes the one-way digest
of the presented plaintext and looks the row up by that digest, never by
the plaintext itself.  The code binds the raw plaintext against the
`tokens.hash` column without computing any digest: for a token issued
through the (spec-modelled) store — whose row is keyed by
`lookupDigest plaintext`, a value distinct from the plaintext — presenting
the plaintext yields `ErrRecordNotFound` even though the token is
unexpired and scope-matched, while a resolve that follows the spec's words
returns the owning user. -/
theorem getForToken_plaintext_lookup_bug :
    tokenC2.row.hash = lookupDigest "WXYZ2345" ∧
    tokenC2.row.hash ≠ "WXYZ2345" ∧
    getForToken dbC2 "activation" "WXYZ2345" = .error .recordNotFound ∧
    resolveSpec dbC2 "activation" "WXYZ2345" 100 = .ok alice :=
  ⟨rfl, by decide, rfl, rfl⟩

/-- C10.  `ValidateUser` on any user whose password hash is nil does not
return normally: it reaches the `panic("missing password hash for user")`
branch (modelled as the `.error` result) for every incoming accumulator
and every such user, so no validation outcome is ever produced for a user
without a password hash. -/
theorem validateUser_panics_on_nil_hash (v : Validator) (u : User)
    (h : u.password.hash = none) :
    validateUser v u = .error "missing password hash for user" ∧
    ∀ w : Validator, validateUser v u ≠ .ok w := by
  have hmain : validateUser v u = .error "missing password hash for user" := by
    simp [validateUser, h]
  exact ⟨hmain, fun w hw => by simp [hmain] at hw⟩

/-- Witness for C10: a concrete user with a nil hash. -/
theorem validateUser_panics_on_nil_hash_witness :
    validateUser Validator.new
        { id := 7, createdAt := 0, name := "Eve", email := "eve@example.com",
          password := { plainText := none, hash := none }, activated := false,
          version := 1 } = .error "missing password hash for user" :=
  (validateUser_panics_on_nil_hash Validator.new _ rfl).1

/-- C4 counterexample.  The claim states that after a successful
`password.Set` the credential holds only the hash, the plaintext reference
being cleared.  At a concrete input the source's `Set` stores the hash and
assigns the plaintext reference to the freshly hashed plaintext — the
resulting credential retains `some "pa55word"`, not `none`. -/
theorem password_set_clears_plaintext_counterexample :
    Password.set bcTest { plainText := none, hash := none } "pa55word" =
      .ok { plainText := some "pa55word", hash := some [8] } ∧
    some "pa55word" ≠ (none : Option String) :=
  ⟨rfl, by decide⟩

/-- C4 as amended.  After a successful `password.Set`, the credential
holds the newly produced hash and additionally retains the plaintext
reference (which `ValidateUser` later reads for the password policy
check): for every bcrypt collaborator, prior credential state and
plaintext, when hashing succeeds with `h` the resulting credential is
exactly `(some plaintext, some h)`. -/
theorem password_set_retains_plaintext (bc : Bcrypt) (p : Password)
    (plain : String) (h : List Nat)
    (hgen : bc.generateFromPassword plain 12 = .ok h) :
    Password.set bc p plain = .ok { plainText := some plain, hash := some h } := by
  simp [Password.set, hgen]

/-- Witness for the amended C4 at a concrete input. -/
theorem password_set_retains_plaintext_witness :
    Password.set bcTest { plainText := none, hash := none } "pa55word1" =
      .ok { plainText := some "pa55word1", hash := some [9] } :=
  password_set_retains_plaintext bcTest _ "pa55word1" [9] rfl

/-- C5.  `password.Matches` maps the bcrypt comparison outcomes exactly as
the claim states: a mismatch against the stored hash yields `(false, nil)`
(no error), any other comparison error — the malformed-stored-hash class —
is propagated as an error rather than `false`, and the result is
`(true, nil)` exactly when the comparison succeeds. -/
theorem password_matches_error_discrimination (bc : Bcrypt) (p : Password)
    (cand : String) :
    (bc.compareHashAndPassword p.hash cand = .mismatched →
      p.matches bc cand = .ok false) ∧
    (∀ e, bc.compareHashAndPassword p.hash cand = .failure e →
      p.matches bc cand = .error e) ∧
    (p.matches bc cand = .ok true ↔
      bc.compareHashAndPassword p.hash cand = .success) := by
  refine ⟨fun h => by simp [Password.matches, h],
    fun e h => by simp [Password.matches, h], ?_⟩
  constructor
  · intro h
    cases hc : bc.compareHashAndPassword p.hash cand <;>
      simp [Password.matches, hc] at h ⊢
  · intro h
    simp [Password.matches, h]

/-- Witness for C5: the three cases at concrete inputs — a wrong-length
candidate against a well-formed test hash, any candidate against a nil
stored hash, and a matching candidate. -/
theorem password_matches_error_discrimination_witness :
    Password.matches bcTest { plainText := none, hash := some [8] }
        "wrongpass" = .ok false ∧
    Password.matches bcTest { plainText := none, hash := none } "x" =
      .error "hashedSecret too short to be a bcrypted password" ∧
    Password.matches bcTest { plainText := none, hash := some [8] }
        "pa55word" = .ok true :=
  ⟨(password_matches_error_discrimination bcTest _ "wrongpass").1 rfl,
   (password_matches_error_discrimination bcTest _ "x").2.1 _ rfl,
   (password_matches_error_discrimination bcTest _ "pa55word").2.2.mpr rfl⟩

/-- C3.  Enumeration safety of `createAuthenticationHandler`: for any two
shape-valid requests, one naming an email with no user row and the other
naming an existing user but a non-matching password, the handler reaches
`invalidCredentialsResponse` in both cases — the client-visible outcomes
are identical. -/
theorem auth_enumeration_safety (bc : Bcrypt) (signer : JwtSigner)
    (secret : String) (db : DBState) (now : Int)
    (e1 p1 e2 p2 : String) (u : User)
    (hv1 : (validatePasswordPlainText (validateEmail Validator.new e1) p1).valid
      = true)
    (hv2 : (validatePasswordPlainText (validateEmail Validator.new e2) p2).valid
      = true)
    (habsent : getByEmail db e1 = .error .recordNotFound)
    (hfound : getByEmail db e2 = .ok u)
    (hwrong : u.password.matches bc p2 = .ok false) :
    createAuthenticationHandler bc signer secret db now e1 p1 =
        .invalidCredentials ∧
    createAuthenticationHandler bc signer secret db now e2 p2 =
        .invalidCredentials ∧
    createAuthenticationHandler bc signer secret db now e1 p1 =
      createAuthenticationHandler bc signer secret db now e2 p2 := by
  have h1 : createAuthenticationHandler bc signer secret db now e1 p1 =
      .invalidCredentials := by
    simp [createAuthenticationHandler, hv1, habsent]
  have h2 : createAuthenticationHandler bc signer secret db now e2 p2 =
      .invalidCredentials := by
    simp [createAuthenticationHandler, hv2, hfound, hwrong]
  exact ⟨h1, h2, h1.trans h2.symm⟩

/-- Witness for C3: an absent email (`carol@...`) and an existing user
(`alice@...`) with a non-matching password produce the same
`invalidCredentials` response. -/
theorem auth_enumeration_safety_witness :
    createAuthenticationHandler bcTest signTest "server-secret" dbTest 0
        "carol@example.com" "password1" = .invalidCredentials ∧
    createAuthenticationHandler bcTest signTest "server-secret" dbTest 0
        "alice@example.com" "wrongpass" = .invalidCredentials ∧
    createAuthenticationHandler bcTest signTest "server-secret" dbTest 0
        "carol@example.com" "password1" =
      createAuthenticationHandler bcTest signTest "server-secret" dbTest 0
        "alice@example.com" "wrongpass" :=
  auth_enumeration_safety bcTest signTest "server-secret" dbTest 0
    "carol@example.com" "password1" "alice@example.com" "wrongpass" alice
    (by rfl) (by rfl) (by rfl) (by rfl) (by rfl)

/-- Helper: the validity of a fresh password-policy pass equals the
conjunction of its three checks. -/
theorem validatePassword_valid_eq (p : String) :
    (validatePasswordPlainText Validator.new p).valid =
      ((p != "") && decide (8 ≤ p.utf8ByteSize)
        && decide (p.utf8ByteSize ≤ 32)) := by
  cases h1 : (p != "") <;> cases h2 : decide (8 ≤ p.utf8ByteSize) <;>
    cases h3 : decide (p.utf8ByteSize ≤ 32) <;>
      simp [validatePasswordPlainText, Validator.check, Validator.addError,
        Validator.new, Validator.valid, h1, h2, h3]

/-- C8.  `ValidatePasswordPlainText` on a fresh accumulator records no
error exactly when the password is non-empty and its byte length lies in
`[8, 32]` inclusive; concretely, lengths 8 and 32 are accepted and lengths
7 and 33 are rejected. -/
theorem password_policy_bounds :
    (∀ p : String, (validatePasswordPlainText Validator.new p).valid = true ↔
      (p ≠ "" ∧ 8 ≤ p.utf8ByteSize ∧ p.utf8ByteSize ≤ 32)) ∧
    (validatePasswordPlainText Validator.new "pa55word").valid = true ∧
    (validatePasswordPlainText Validator.new
      "abcdefghijklmnopqrstuvwxyz123456").valid = true ∧
    (validatePasswordPlainText Validator.new "1234567").valid = false ∧
    (validatePasswordPlainText Validator.new
      "abcdefghijklmnopqrstuvwxyz1234567").valid = false := by
  refine ⟨fun p => ?_, by rfl, by rfl, by rfl, by rfl⟩
  rw [validatePassword_valid_eq]
  simp [bne_iff_ne, and_assoc]

/-- C7.  On every successful authentication the handler emits exactly the
HMAC-HS256 signature, under the configured server secret, of claims whose
subject is the decimal rendering of the user's id, whose issuer and
audience are the fixed service identifier `agung96tm.com`, whose issued
and not-before instants are the handler's run instant, and whose expiry is
that instant plus 24 hours (86400 s). -/
theorem session_claims_shape (bc : Bcrypt) (signer : JwtSigner)
    (secret : String) (db : DBState) (now : Int)
    (email pw : String) (u : User) (tok : String)
    (hv : (validatePasswordPlainText (validateEmail Validator.new email) pw).valid
      = true)
    (hfound : getByEmail db email = .ok u)
    (hmatch : u.password.matches bc pw = .ok true)
    (hsign : signer.hmacSign .HS256 secret
      { subject := toString u.id, issued := now, notBefore := now,
        expires := now + 86400, issuer := "agung96tm.com",
        audiences := ["agung96tm.com"] } = .ok tok) :
    createAuthenticationHandler bc signer secret db now email pw =
      .created [("authentication_token", tok)] := by
  simp [createAuthenticationHandler, hv, hfound, hmatch, hsign]

/-- Witness for C7: alice logs in with a matching password at instant
1000; the response carries the signature of the specified claims under the
configured secret. -/
theorem session_claims_shape_witness :
    createAuthenticationHandler bcTest signTest "server-secret" dbTest 1000
        "alice@example.com" "pa55word" =
      .created [("authentication_token", "server-secret.1.87400")] :=
  session_claims_shape bcTest signTest "server-secret" dbTest 1000
    "alice@example.com" "pa55word" alice "server-secret.1.87400"
    (by rfl) (by rfl) (by rfl) (by rfl)

/-- C6.  On every successful password-reset or activation token request
the client response is the fixed status-message envelope — containing the
token's plaintext nowhere, since the plaintext differs from the two
constant strings of the envelope — and the plaintext travels only in the
single dispatched background email task. -/
theorem token_response_omits_plaintext (db1 db2 : DBState) (t1 t2 : Token)
    (e1 e2 : String) (u1 u2 : User)
    (hv1 : (validateEmail Validator.new e1).valid = true)
    (hf1 : getByEmail db1 e1 = .ok u1) (ha1 : u1.activated = true)
    (hv2 : (validateEmail Validator.new e2).valid = true)
    (hf2 : getByEmail db2 e2 = .ok u2) (ha2 : u2.activated = false) :
    (createPasswordResetTokenHandler db1 (.ok t1) e1 =
      (.accepted [("message", "Success to Send Reset Password")],
       [{ recipient := u1.email, template := "token_password_reset",
          data := [("passwordResetToken", t1.plainText)] }]) ∧
     (t1.plainText ≠ "message" →
      t1.plainText ≠ "Success to Send Reset Password" →
      t1.plainText ∉
        (createPasswordResetTokenHandler db1 (.ok t1) e1).fst.bodyStrings)) ∧
    (createActivationTokenHandler db2 (.ok t2) e2 =
      (.accepted [("message", "success send email activation")],
       [{ recipient := u2.email, template := "token_activation",
          data := [("activationToken", t2.plainText)] }]) ∧
     (t2.plainText ≠ "message" →
      t2.plainText ≠ "success send email activation" →
      t2.plainText ∉
        (createActivationTokenHandler db2 (.ok t2) e2).fst.bodyStrings)) := by
  have h1 : createPasswordResetTokenHandler db1 (.ok t1) e1 =
      (.accepted [("message", "Success to Send Reset Password")],
       [{ recipient := u1.email, template := "token_password_reset",
          data := [("passwordResetToken", t1.plainText)] }]) := by
    simp [createPasswordResetTokenHandler, hv1, hf1, ha1]
  have h2 : createActivationTokenHandler db2 (.ok t2) e2 =
      (.accepted [("message", "success send email activation")],
       [{ recipient := u2.email, template := "token_activation",
          data := [("activationToken", t2.plainText)] }]) := by
    simp [createActivationTokenHandler, hv2, hf2, ha2]
  refine ⟨⟨h1, fun hk hm => ?_⟩, ⟨h2, fun hk hm => ?_⟩⟩
  · rw [h1]
    simp [Response.bodyStrings, hk, hm]
  · rw [h2]
    simp [Response.bodyStrings, hk, hm]

/-- Witness for C6: a reset request by activated alice and an activation
request by unactivated bob, each with a concrete issued token. -/
theorem token_response_omits_plaintext_witness :
    (createPasswordResetTokenHandler dbTest (.ok tokenTest)
        "alice@example.com" =
      (.accepted [("message", "Success to Send Reset Password")],
       [{ recipient := "alice@example.com",
          template := "token_password_reset",
          data := [("passwordResetToken", "RESET234")] }])) ∧
    (createActivationTokenHandler dbTest (.ok tokenTest)
        "bob@example.com" =
      (.accepted [("message", "success send email activation")],
       [{ recipient := "bob@example.com", template := "token_activation",
          data := [("activationToken", "RESET234")] }])) ∧
    "RESET234" ∉
      (createPasswordResetTokenHandler dbTest (.ok tokenTest)
        "alice@example.com").fst.bodyStrings ∧
    "RESET234" ∉
      (createActivationTokenHandler dbTest (.ok tokenTest)
        "bob@example.com").fst.bodyStrings := by
  have h := token_response_omits_plaintext dbTest dbTest tokenTest tokenTest
    "alice@example.com" "bob@example.com" alice bob
    (by rfl) (by rfl) (by rfl) (by rfl) (by rfl) (by rfl)
  exact ⟨h.1.1, h.2.1, h.1.2 (by decide) (by decide),
    h.2.2 (by decide) (by decide)⟩

/-- A mailer outcome for witnesses: every send fails with a fixed SMTP
error. -/
def sendFailTest : EmailTask → Option String := fun _t => some "smtp failure"

/-- C9.  The background email outcome never alters the client response of
the reset/activation handlers: the response component of a whole request
round is the same for any two mailer outcomes (the handler decides it
before the task runs), and on the success path a failing send leaves the
Accepted response intact while the error goes to the log — and only
there. -/
theorem background_errors_logged_only (db : DBState)
    (tokenRes : Except String Token) (email : String)
    (send sendB : EmailTask → Option String) (t : Token) (u : User)
    (err : String) :
    ((processResetRequest db tokenRes email send).fst =
      (processResetRequest db tokenRes email sendB).fst) ∧
    ((processActivationRequest db tokenRes email send).fst =
      (processActivationRequest db tokenRes email sendB).fst) ∧
    ((validateEmail Validator.new email).valid = true →
     getByEmail db email = .ok u → u.activated = true →
     send { recipient := u.email, template := "token_password_reset",
            data := [("passwordResetToken", t.plainText)] } = some err →
     processResetRequest db (.ok t) email send =
       (.accepted [("message", "Success to Send Reset Password")],
        [.errorLog err])) ∧
    ((validateEmail Validator.new email).valid = true →
     getByEmail db email = .ok u → u.activated = false →
     send { recipient := u.email, template := "token_activation",
            data := [("activationToken", t.plainText)] } = some err →
     processActivationRequest db (.ok t) email send =
       (.accepted [("message", "success send email activation")],
        [.errorLog err])) := by
  refine ⟨rfl, rfl, fun hv hf ha hs => ?_, fun hv hf ha hs => ?_⟩
  · have h1 : createPasswordResetTokenHandler db (.ok t) email =
        (.accepted [("message", "Success to Send Reset Password")],
         [{ recipient := u.email, template := "token_password_reset",
            data := [("passwordResetToken", t.plainText)] }]) := by
      simp [createPasswordResetTokenHandler, hv, hf, ha]
    simp [processResetRequest, h1, runEmailTask, hs]
  · have h2 : createActivationTokenHandler db (.ok t) email =
        (.accepted [("message", "success send email activation")],
         [{ recipient := u.email, template := "token_activation",
            data := [("activationToken", t.plainText)] }]) := by
      simp [createActivationTokenHandler, hv, hf, ha]
    simp [processActivationRequest, h2, runEmailTask, hs]

/-- Witness for C9: with every send failing, alice's reset round and bob's
activation round still answer Accepted, the failure appearing only in the
log. -/
theorem background_errors_logged_only_witness :
    processResetRequest dbTest (.ok tokenTest) "alice@example.com"
        sendFailTest =
      (.accepted [("message", "Success to Send Reset Password")],
       [.errorLog "smtp failure"]) ∧
    processActivationRequest dbTest (.ok tokenTest) "bob@example.com"
        sendFailTest =
      (.accepted [("message", "success send email activation")],
       [.errorLog "smtp failure"]) :=
  ⟨(background_errors_logged_only dbTest (.ok tokenTest) "alice@example.com"
      sendFailTest sendFailTest tokenTest alice "smtp failure").2.2.1
      (by rfl) (by rfl) (by rfl) (by rfl),
   (background_errors_logged_only dbTest (.ok tokenTest) "bob@example.com"
      sendFailTest sendFailTest tokenTest bob "smtp failure").2.2.2
      (by rfl) (by rfl) (by rfl) (by rfl)⟩
